import Mathlib

/-!
Verification of the DJCap reconciliation and enrichment pipeline.

This development gives a shallow embedding, in Lean 4, of the reconciliation
logic of `djcap_processor.py` and of the key translator `src/key_translator.py`,
and proves (or refutes) the behavioural claims made by the natural-language
specification of the repository.

Modelling conventions:
  * Python `None`-able values are modelled as `Option`; a JSON key that is
    missing and a key whose value is `None` are both modelled as `none`
    unless the code distinguishes them (in which case a comment says so).
  * Python truthiness on strings ("" and `None` are falsy) is modelled by
    explicit `strTruthy`-style checks.
  * `time.time()` values (floats) are modelled as rationals `ℚ`.
  * Mutable module-level state (the rate-limiter deque, the per-artist GIF
    history, the music-video cache and in-flight set) is passed explicitly
    and returned, turning each Python function into a state transformer.
  * `random.shuffle` is modelled by quantifying over permutations
    (`List.Perm`) of the list that Python shuffles in place.
-/

namespace DJCap

/-- Python truthiness of an optional string: `None` and `""` are falsy. -/
def strTruthy : Option String → Bool
  | none => false
  | some s => s ≠ ""

/-- ASCII whitespace recognized by Python `str.strip()`. -/
def pyIsSpace (c : Char) : Bool :=
  c = ' ' ∨ c = '\t' ∨ c = '\n' ∨ c = '\r' ∨ c = '\x0b' ∨ c = '\x0c'

/-- Python `str.strip()` (ASCII whitespace). -/
def pyStrip (s : String) : String :=
  ⟨((s.data.dropWhile pyIsSpace).reverse.dropWhile pyIsSpace).reverse⟩

/-- Python `str.upper()` (restricted to ASCII, which covers every string the
translator's table contains). -/
def pyUpper (s : String) : String :=
  ⟨s.data.map Char.toUpper⟩

/-- Python `str.lower()` (restricted to ASCII). -/
def pyLower (s : String) : String :=
  ⟨s.data.map Char.toLower⟩

/-- Python truthiness of an optional number: `None` and `0` are falsy. -/
def numTruthy : Option ℚ → Bool
  | none => false
  | some q => q ≠ 0

/-! ## Key translator (`src/key_translator.py`) -/

/-- `CAMELOT_KEY_CHARACTERISTICS` from `src/key_translator.py`: the 24 fixed
Camelot-wheel keys and their characteristic keyword lists. -/
def CAMELOT_KEY_CHARACTERISTICS : List (String × List String) :=
  [ ("1A", ["innocent", "pure", "simple", "happy", "cheerful", "bright"]),
    ("2A", ["triumphant", "victorious", "joyful", "energetic", "uplifting"]),
    ("3A", ["warm", "tender", "gentle", "peaceful", "calm"]),
    ("4A", ["optimistic", "hopeful", "bright", "energetic", "positive"]),
    ("5A", ["majestic", "grand", "powerful", "confident", "bold"]),
    ("6A", ["pastoral", "serene", "peaceful", "gentle", "calm"]),
    ("7A", ["bright", "cheerful", "energetic", "uplifting", "happy"]),
    ("8A", ["heroic", "triumphant", "powerful", "confident", "bold"]),
    ("9A", ["warm", "tender", "gentle", "peaceful", "serene"]),
    ("10A", ["bright", "cheerful", "energetic", "uplifting", "optimistic"]),
    ("11A", ["majestic", "grand", "powerful", "confident", "bold"]),
    ("12A", ["tender", "gentle", "peaceful", "calm", "serene"]),
    ("1B", ["sad", "melancholic", "tender", "introspective", "emotional"]),
    ("2B", ["mysterious", "dark", "brooding", "intense", "dramatic"]),
    ("3B", ["sad", "melancholic", "tender", "emotional", "introspective"]),
    ("4B", ["mysterious", "dark", "brooding", "intense", "dramatic"]),
    ("5B", ["sad", "melancholic", "tender", "emotional", "introspective"]),
    ("6B", ["mysterious", "dark", "brooding", "intense", "dramatic"]),
    ("7B", ["sad", "melancholic", "tender", "emotional", "introspective"]),
    ("8B", ["mysterious", "dark", "brooding", "intense", "dramatic"]),
    ("9B", ["sad", "melancholic", "tender", "emotional", "introspective"]),
    ("10B", ["mysterious", "dark", "brooding", "intense", "dramatic"]),
    ("11B", ["sad", "melancholic", "tender", "emotional", "introspective"]),
    ("12B", ["mysterious", "dark", "brooding", "intense", "dramatic"]) ]

/-- `translate_key_to_characteristics` from `src/key_translator.py`.
`if not key: return []`, then `key = str(key).strip().upper()`, then a
dictionary lookup with `[]` as the not-found result. -/
def translate_key_to_characteristics (key : Option String) : List String :=
  match key with
  | none => []
  | some s =>
    if s = "" then []
    else
      match CAMELOT_KEY_CHARACTERISTICS.lookup (pyUpper (pyStrip s)) with
      | some cs => cs
      | none => []

/-! ## Giphy rate limiter (`djcap_processor.py`, lines 784-841) -/

/-- `GIPHY_MAX_REQUESTS_PER_HOUR` (env default `"40"`). -/
def GIPHY_MAX_REQUESTS_PER_HOUR : ℤ := 40

/-- `_giphy_prune`: drop timestamps older than one hour from the front of the
deque (`while _GIPHY_RATE_TS and _GIPHY_RATE_TS[0] < cutoff: popleft()`). -/
def giphy_prune (now : ℚ) : List ℚ → List ℚ
  | [] => []
  | t :: rest => if t < now - 3600 then giphy_prune now rest else t :: rest

/-- `_giphy_can_request(cost)`: prune, then return whether
`len(_GIPHY_RATE_TS) + cost <= GIPHY_MAX_REQUESTS_PER_HOUR`.
The pruned deque is returned as well because the Python function mutates the
module-level deque in place. -/
def giphy_can_request (cost : ℤ) (now : ℚ) (ts : List ℚ) : Bool × List ℚ :=
  let ts2 := giphy_prune now ts
  (decide ((ts2.length : ℤ) + cost ≤ GIPHY_MAX_REQUESTS_PER_HOUR), ts2)

/-- `_giphy_record_request(cost)`: prune, then append `max(1, cost)` copies of
`now` to the deque. -/
def giphy_record_request (cost : ℤ) (now : ℚ) (ts : List ℚ) : List ℚ :=
  giphy_prune now ts ++ List.replicate (max 1 cost).toNat now

/-- One admission-control call: either `_giphy_can_request` (which prunes as a
side effect) or `_giphy_record_request`, annotated with the `time.time()`
value at which it runs. -/
inductive GiphyOp where
  | can (cost : ℤ)
  | record (cost : ℤ)
deriving DecidableEq, Repr

/-- Run a sequence of rate-limiter calls over the timestamp deque. -/
def runGiphyOps : List (GiphyOp × ℚ) → List ℚ → List ℚ
  | [], ts => ts
  | (.can c, t) :: rest, ts => runGiphyOps rest (giphy_can_request c t ts).2
  | (.record c, t) :: rest, ts => runGiphyOps rest (giphy_record_request c t ts)

/-- The discipline the orchestrator follows: every `record` is performed only
after a `can` with the same cost returned `true` at the same time. -/
def giphyGated : List (GiphyOp × ℚ) → List ℚ → Bool
  | [], _ => true
  | (.can c, t) :: rest, ts => giphyGated rest (giphy_can_request c t ts).2
  | (.record c, t) :: rest, ts =>
    (giphy_can_request c t ts).1 && giphyGated rest (giphy_record_request c t ts)

/-- All `record` calls in the sequence have cost at least 1. -/
def giphyCostsPos : List (GiphyOp × ℚ) → Bool
  | [] => true
  | (.can _, _) :: rest => giphyCostsPos rest
  | (.record c, _) :: rest => decide (1 ≤ c) && giphyCostsPos rest

/-- Number of recorded timestamps lying in the trailing one-hour window ending
at time `t`. -/
def giphyWindowCount (t : ℚ) (ts : List ℚ) : ℕ :=
  (ts.filter (fun x => decide (t - 3600 ≤ x) && decide (x ≤ t))).length

theorem giphy_prune_length_le (now : ℚ) (ts : List ℚ) :
    (giphy_prune now ts).length ≤ ts.length := by
  induction ts with
  | nil => simp [giphy_prune]
  | cons t rest ih =>
    simp only [giphy_prune]
    split
    · exact Nat.le_succ_of_le ih
    · simp

theorem runGiphyOps_length_le (ops : List (GiphyOp × ℚ)) (ts : List ℚ)
    (hg : giphyGated ops ts = true) (hc : giphyCostsPos ops = true)
    (hlen : (ts.length : ℤ) ≤ GIPHY_MAX_REQUESTS_PER_HOUR) :
    ((runGiphyOps ops ts).length : ℤ) ≤ GIPHY_MAX_REQUESTS_PER_HOUR := by
  induction ops generalizing ts with
  | nil => simpa [runGiphyOps] using hlen
  | cons op rest ih =>
    obtain ⟨op, t⟩ := op
    cases op with
    | can c =>
      simp only [runGiphyOps, giphyGated, giphyCostsPos] at hg hc ⊢
      refine ih _ hg hc ?_
      calc ((giphy_can_request c t ts).2.length : ℤ)
          = ((giphy_prune t ts).length : ℤ) := by simp [giphy_can_request]
        _ ≤ (ts.length : ℤ) := by exact_mod_cast giphy_prune_length_le t ts
        _ ≤ GIPHY_MAX_REQUESTS_PER_HOUR := hlen
    | record c =>
      simp only [runGiphyOps, giphyGated, giphyCostsPos, Bool.and_eq_true,
        decide_eq_true_eq] at hg hc
      refine ih _ hg.2 hc.2 ?_
      have hadm : ((giphy_prune t ts).length : ℤ) + c ≤ GIPHY_MAX_REQUESTS_PER_HOUR := by
        have := hg.1
        simpa [giphy_can_request] using this
      have hc1 : (1 : ℤ) ≤ c := hc.1
      have hmax : (max 1 c) = c := max_eq_right hc1
      have : (giphy_record_request c t ts).length
          = (giphy_prune t ts).length + c.toNat := by
        simp [giphy_record_request, hmax]
      rw [this]
      push_cast
      rw [Int.toNat_of_nonneg (by omega)]
      omega

theorem giphy_prune_cons_of_recent {now t : ℚ} (h : ¬ t < now - 3600)
    (rest : List ℚ) : giphy_prune now (t :: rest) = t :: rest := by
  rw [giphy_prune, if_neg h]

theorem filter_replicate_true {p : ℚ → Bool} {a : ℚ} (h : p a = true) (n : ℕ) :
    (List.replicate n a).filter p = List.replicate n a := by
  induction n with
  | zero => rfl
  | succ n ih => simp [List.replicate_succ, List.filter_cons, h, ih]

/-- The gated sequence used to refute the unrestricted rate-limit claim: one
admitted cost-40 record followed by one admitted cost-0 record, both at
time 0. -/
def c2ops : List (GiphyOp × ℚ) :=
  [(GiphyOp.record 40, (0 : ℚ)), (GiphyOp.record 0, (0 : ℚ))]

/-- C2 counterexample: the claim quantifies over every interleaved sequence of
`_giphy_can_request(cost)`/`_giphy_record_request(cost)` calls and asserts the
recorded-timestamp count never exceeds `GIPHY_MAX_REQUESTS_PER_HOUR`, with
`record` described as appending `cost` timestamps.  But the code appends
`max(1, cost)` timestamps, so an admitted `record(0)` (admitted because
`count + 0 <= 40`) still appends one timestamp: after an admitted cost-40
record and an admitted cost-0 record, 41 timestamps lie in the trailing
hour-long window, exceeding the ceiling of 40. -/
theorem c2_counterexample :
    giphyGated c2ops [] = true ∧
      GIPHY_MAX_REQUESTS_PER_HOUR < (giphyWindowCount 0 (runGiphyOps c2ops [])) := by
  have hprune : giphy_prune 0 (List.replicate 40 (0 : ℚ)) = List.replicate 40 (0 : ℚ) := by
    rw [List.replicate_succ, giphy_prune_cons_of_recent (by norm_num)]
  have hrec40 : giphy_record_request 40 0 [] = List.replicate 40 (0 : ℚ) := by
    simp [giphy_record_request, giphy_prune]
  have hcan40 : (giphy_can_request 40 0 []).1 = true := by
    simp [giphy_can_request, giphy_prune, GIPHY_MAX_REQUESTS_PER_HOUR]
  have hcan0 : (giphy_can_request 0 0 (List.replicate 40 (0 : ℚ))).1 = true := by
    simp only [giphy_can_request, hprune, List.length_replicate,
      GIPHY_MAX_REQUESTS_PER_HOUR]
    norm_num
  have hrec0 : giphy_record_request 0 0 (List.replicate 40 (0 : ℚ))
      = List.replicate 41 (0 : ℚ) := by
    rw [giphy_record_request, hprune,
      show (41 : ℕ) = 40 + 1 from rfl, List.replicate_succ']
    rfl
  constructor
  · simp only [c2ops, giphyGated, hrec40, hcan40, hcan0, Bool.true_and]
  · have hrun : runGiphyOps c2ops [] = List.replicate 41 (0 : ℚ) := by
      simp only [c2ops, runGiphyOps, hrec40, hrec0]
    rw [hrun]
    have h41 : giphyWindowCount 0 (List.replicate 41 (0 : ℚ)) = 41 := by
      unfold giphyWindowCount
      rw [filter_replicate_true (by norm_num)]
      simp
    rw [h41]
    norm_num [GIPHY_MAX_REQUESTS_PER_HOUR]

/-- C2 (amended): for every interleaved sequence of `_giphy_can_request(cost)`
and `_giphy_record_request(cost)` calls in which each record is performed only
after a `can_request` with the same cost returned true at the same time, and
every record cost is at least 1, the number of recorded timestamps lying
within any trailing window of 3600 seconds never exceeds
`GIPHY_MAX_REQUESTS_PER_HOUR` (starting from any deque already within the
ceiling; since this holds for every gated sequence, it holds after every
prefix of a longer run). -/
theorem c2_rate_limit_bound (ops : List (GiphyOp × ℚ)) (ts : List ℚ)
    (hg : giphyGated ops ts = true) (hc : giphyCostsPos ops = true)
    (hlen : (ts.length : ℤ) ≤ GIPHY_MAX_REQUESTS_PER_HOUR) (t : ℚ) :
    (giphyWindowCount t (runGiphyOps ops ts) : ℤ) ≤ GIPHY_MAX_REQUESTS_PER_HOUR := by
  have hwin : giphyWindowCount t (runGiphyOps ops ts) ≤ (runGiphyOps ops ts).length :=
    List.length_filter_le _ _
  have hrun := runGiphyOps_length_le ops ts hg hc hlen
  omega

/-- Closed witness for `c2_rate_limit_bound` at a concrete gated sequence. -/
theorem c2_rate_limit_bound_witness :
    (giphyWindowCount 5 (runGiphyOps [(GiphyOp.record 1, (0 : ℚ))] []) : ℤ)
      ≤ GIPHY_MAX_REQUESTS_PER_HOUR :=
  c2_rate_limit_bound [(GiphyOp.record 1, (0 : ℚ))] []
    (by simp [giphyGated, giphy_can_request, giphy_prune, GIPHY_MAX_REQUESTS_PER_HOUR])
    (by decide) (by decide) 5

/-! ## Artist GIF history selector (`djcap_processor.py`, lines 766-954) -/

/-- `GIPHY_GIFS_PER_TRACK` (the default `max_count`). -/
def GIPHY_GIFS_PER_TRACK : ℕ := 5

/-- `GIPHY_HISTORY_MAX_IDS_PER_ARTIST` as a function of the environment value
(`int(os.getenv(..., "200"))` clamped to `[20, 2000]` by
`max(20, min(2000, ...))`). -/
def GIPHY_HISTORY_MAX_IDS_PER_ARTIST (env : ℤ) : ℕ :=
  (max 20 (min 2000 env)).toNat

/-- A provider media item as the selector sees it: a dict carrying optional
`id` and `url` entries, generic over the identifier type (the Python dicts are
untyped; `none` models a missing key or a falsy value). -/
structure GifItem (α : Type) where
  id : Option α
  url : Option α
deriving DecidableEq, Repr

/-- `g.get("id") or g.get("url") or ""`: the identity the selector de-dupes
and remembers by; `none` models the overall-falsy case. -/
def gifKey {α : Type} (g : GifItem α) : Option α :=
  g.id.orElse fun _ => g.url

/-- `_normalize_artist_key`:
`(str(artist).strip().lower() if artist else "").strip()`. -/
def normalize_artist_key (artist : Option String) : String :=
  if strTruthy artist then pyStrip (pyLower (pyStrip (artist.getD ""))) else ""

/-- The in-batch de-duplication loop of `_filter_and_select_gifs_for_artist`
(`seen` accumulates the keys already kept; items with a falsy key are
skipped). -/
def dedupeAux {α : Type} [DecidableEq α] :
    List (GifItem α) → List α → List (GifItem α)
  | [], _ => []
  | g :: rest, seen =>
    match gifKey g with
    | none => dedupeAux rest seen
    | some v =>
      if v ∈ seen then dedupeAux rest seen else g :: dedupeAux rest (v :: seen)

/-- De-dupe a batch of GIFs by key, keeping first occurrences. -/
def dedupeGifs {α : Type} [DecidableEq α] (gifs : List (GifItem α)) :
    List (GifItem α) :=
  dedupeAux gifs []

/-- `artist_key and gid in used_ids` for one item (the `artist_key` guard is
applied by the caller, which passes `used = []` when the key is falsy). -/
def gifUsed {α : Type} [DecidableEq α] (used : List α) (g : GifItem α) : Bool :=
  match gifKey g with
  | some v => decide (v ∈ used)
  | none => false

/-- `while len(q) > M: q.popleft()` — keep the most recent `M` entries. -/
def trimFront {α : Type} (M : ℕ) (l : List α) : List α :=
  l.drop (l.length - M)

/-- The part of `_filter_and_select_gifs_for_artist` that follows
`random.shuffle(unique)`: partition the shuffled unique batch into fresh
items (key not in the artist's history) and fallback items, put fresh first,
truncate to `max_count`, and append the selected keys to the history, trimmed
to the bounded maximum. -/
def selectAfterShuffle {α : Type} [DecidableEq α] (artistKey : String)
    (hist : List α) (M maxCount : ℕ) (shuffled : List (GifItem α)) :
    List (GifItem α) × List α :=
  let usedIds := if artistKey = "" then [] else hist
  let fresh := shuffled.filter fun g => !gifUsed usedIds g
  let fallback := shuffled.filter fun g => gifUsed usedIds g
  let selected := (fresh ++ fallback).take maxCount
  if artistKey = "" then (selected, hist)
  else (selected, trimFront M (hist ++ selected.filterMap gifKey))

/-- `_filter_and_select_gifs_for_artist`.  The in-place `random.shuffle` is
modelled by the extra `shuffled` argument; theorems quantify over every
permutation of the de-duplicated batch.  The per-artist history map is
represented by the current artist's queue `hist`, returned updated. -/
def filter_and_select_gifs_for_artist {α : Type} [DecidableEq α]
    (artist : Option String) (hist : List α) (M maxCount : ℕ)
    (gifs shuffled : List (GifItem α)) : List (GifItem α) × List α :=
  if gifs.isEmpty then ([], hist)
  else selectAfterShuffle (normalize_artist_key artist) hist M maxCount shuffled

theorem dedupeAux_key_isSome {α : Type} [DecidableEq α] {l : List (GifItem α)}
    {seen : List α} {g : GifItem α} (h : g ∈ dedupeAux l seen) :
    (gifKey g).isSome := by
  induction l generalizing seen with
  | nil => simp [dedupeAux] at h
  | cons a rest ih =>
    cases hk : gifKey a with
    | none =>
      simp only [dedupeAux, hk] at h
      exact ih h
    | some v =>
      simp only [dedupeAux, hk] at h
      by_cases hv : v ∈ seen
      · rw [if_pos hv] at h
        exact ih h
      · rw [if_neg hv] at h
        rcases List.mem_cons.mp h with h | h
        · subst h
          simp [hk]
        · exact ih h

theorem dedupeAux_keys_nodup_disjoint {α : Type} [DecidableEq α]
    (l : List (GifItem α)) (seen : List α) :
    ((dedupeAux l seen).filterMap gifKey).Nodup ∧
      ∀ v ∈ (dedupeAux l seen).filterMap gifKey, v ∉ seen := by
  induction l generalizing seen with
  | nil => simp [dedupeAux]
  | cons a rest ih =>
    cases hk : gifKey a with
    | none =>
      simp only [dedupeAux, hk]
      exact ih seen
    | some v =>
      by_cases hv : v ∈ seen
      · simp only [dedupeAux, hk, if_pos hv]
        exact ih seen
      · simp only [dedupeAux, hk, if_neg hv]
        have ihv := ih (v :: seen)
        rw [List.filterMap_cons_some hk]
        constructor
        · refine List.nodup_cons.mpr ⟨?_, ihv.1⟩
          intro hvmem
          exact (ihv.2 v hvmem) (List.mem_cons_self v seen)
        · intro w hw
          rcases List.mem_cons.mp hw with hw | hw
          · subst hw
            exact hv
          · intro hws
            exact (ihv.2 w hw) (List.mem_cons_of_mem v hws)

theorem filterMap_gifKey_length {α : Type} (l : List (GifItem α))
    (h : ∀ g ∈ l, (gifKey g).isSome) :
    (l.filterMap gifKey).length = l.length := by
  induction l with
  | nil => rfl
  | cons a rest ih =>
    obtain ⟨v, hv⟩ := Option.isSome_iff_exists.mp (h a (List.mem_cons_self a rest))
    rw [List.filterMap_cons_some hv, List.length_cons, List.length_cons,
      ih fun g hg => h g (List.mem_cons_of_mem a hg)]

theorem fallback_length_le {α : Type} [DecidableEq α] {s : List (GifItem α)}
    {used : List α} (hnd : (s.filterMap gifKey).Nodup) :
    (s.filter fun g => gifUsed used g).length ≤ used.length := by
  have hsub : ((s.filter fun g => gifUsed used g).filterMap gifKey).Sublist
      (s.filterMap gifKey) :=
    List.Sublist.filterMap gifKey (List.filter_sublist s)
  have hnd2 := hnd.sublist hsub
  have hall : ∀ g ∈ s.filter fun g => gifUsed used g, (gifKey g).isSome := by
    intro g hg
    have hu := List.of_mem_filter hg
    unfold gifUsed at hu
    cases hk : gifKey g with
    | none => rw [hk] at hu; exact absurd hu (by simp)
    | some v => simp
  have hlen := filterMap_gifKey_length _ hall
  have hmem : ∀ v ∈ (s.filter fun g => gifUsed used g).filterMap gifKey,
      v ∈ used := by
    intro v hv
    obtain ⟨g, hg, hgk⟩ := List.mem_filterMap.mp hv
    have hu := List.of_mem_filter hg
    unfold gifUsed at hu
    rw [hgk] at hu
    exact of_decide_eq_true hu
  have h1 := List.toFinset_card_of_nodup hnd2
  have h2 : ((s.filter fun g => gifUsed used g).filterMap gifKey).toFinset
      ⊆ used.toFinset := by
    intro v hv
    exact List.mem_toFinset.mpr (hmem v (List.mem_toFinset.mp hv))
  have h3 := Finset.card_le_card h2
  have h4 := List.toFinset_card_le used
  omega

theorem trimFront_length_le {α : Type} (M : ℕ) (l : List α) :
    (trimFront M l).length ≤ M := by
  simp only [trimFront, List.length_drop]
  omega

theorem mem_trimFront_append {α : Type} {M : ℕ} {a b : List α}
    (h : b.length ≤ M) {x : α} (hx : x ∈ b) : x ∈ trimFront M (a ++ b) := by
  unfold trimFront
  rw [List.length_append, List.drop_append_of_le_length (by omega)]
  exact List.mem_append_right _ hx

theorem select_length_le {α : Type} [DecidableEq α] (artist : Option String)
    (hist : List α) (M maxCount : ℕ) (gifs shuffled : List (GifItem α)) :
    (filter_and_select_gifs_for_artist artist hist M maxCount gifs shuffled).1.length
      ≤ maxCount := by
  unfold filter_and_select_gifs_for_artist selectAfterShuffle
  split
  · simp
  · split
    · exact List.length_take_le _ _
    · exact List.length_take_le _ _

/-- C4 (amended with `max_count ≤ M`): with a non-empty artist key, for any
two candidate lists each containing at least `max_count + M` distinct item
keys and any two shuffle permutations, the items selected by two consecutive
calls for the same artist have disjoint keys, and each result has at most
`max_count` items. -/
theorem c4_history_non_repeat {α : Type} [DecidableEq α] (artist : Option String)
    (hist : List α) (M maxCount : ℕ) (g1 g2 s1 s2 : List (GifItem α))
    (hak : normalize_artist_key artist ≠ "") (hM : maxCount ≤ M)
    (hp1 : s1.Perm (dedupeGifs g1)) (hp2 : s2.Perm (dedupeGifs g2))
    (hn1 : maxCount + M ≤ (dedupeGifs g1).length)
    (hn2 : maxCount + M ≤ (dedupeGifs g2).length) :
    (filter_and_select_gifs_for_artist artist hist M maxCount g1 s1).1.length
        ≤ maxCount ∧
    (filter_and_select_gifs_for_artist artist
        (filter_and_select_gifs_for_artist artist hist M maxCount g1 s1).2
        M maxCount g2 s2).1.length ≤ maxCount ∧
    ∀ x ∈ (filter_and_select_gifs_for_artist artist hist M maxCount g1 s1).1,
      ∀ y ∈ (filter_and_select_gifs_for_artist artist
          (filter_and_select_gifs_for_artist artist hist M maxCount g1 s1).2
          M maxCount g2 s2).1, gifKey x ≠ gifKey y := by
  refine ⟨select_length_le _ _ _ _ _ _, select_length_le _ _ _ _ _ _, ?_⟩
  intro x hx y hy
  rcases hg1 : g1.isEmpty with _ | _
  case true =>
    rw [filter_and_select_gifs_for_artist, if_pos hg1] at hx
    simp at hx
  rcases hg2 : g2.isEmpty with _ | _
  case true =>
    rw [filter_and_select_gifs_for_artist, if_pos hg2] at hy
    simp at hy
  have hr1 : filter_and_select_gifs_for_artist artist hist M maxCount g1 s1
      = (((s1.filter fun g => !gifUsed hist g)
            ++ s1.filter fun g => gifUsed hist g).take maxCount,
         trimFront M (hist ++ (((s1.filter fun g => !gifUsed hist g)
            ++ s1.filter fun g => gifUsed hist g).take maxCount).filterMap gifKey)) := by
    rw [filter_and_select_gifs_for_artist, if_neg (by simp [hg1])]
    simp only [selectAfterShuffle, if_neg hak]
  set sel1 := ((s1.filter fun g => !gifUsed hist g)
      ++ s1.filter fun g => gifUsed hist g).take maxCount with hsel1
  set hist2 := trimFront M (hist ++ sel1.filterMap gifKey) with hhist2
  rw [hr1] at hx hy
  have hr2 : filter_and_select_gifs_for_artist artist hist2 M maxCount g2 s2
      = (((s2.filter fun g => !gifUsed hist2 g)
            ++ s2.filter fun g => gifUsed hist2 g).take maxCount,
         trimFront M (hist2 ++ (((s2.filter fun g => !gifUsed hist2 g)
            ++ s2.filter fun g => gifUsed hist2 g).take maxCount).filterMap gifKey)) := by
    rw [filter_and_select_gifs_for_artist, if_neg (by simp [hg2])]
    simp only [selectAfterShuffle, if_neg hak]
  rw [hr2] at hy
  -- the key of `x`
  have hx1 : x ∈ (s1.filter fun g => !gifUsed hist g)
      ++ s1.filter fun g => gifUsed hist g := List.mem_of_mem_take hx
  have hxs1 : x ∈ s1 := by
    rcases List.mem_append.mp hx1 with h | h
    · exact List.mem_of_mem_filter h
    · exact List.mem_of_mem_filter h
  have hxk : (gifKey x).isSome :=
    dedupeAux_key_isSome (hp1.mem_iff.mp hxs1)
  obtain ⟨vx, hvx⟩ := Option.isSome_iff_exists.mp hxk
  have hkeys1len : (sel1.filterMap gifKey).length ≤ M :=
    le_trans (le_trans (List.length_filterMap_le _ _) (List.length_take_le _ _)) hM
  have hvx2 : vx ∈ hist2 :=
    mem_trimFront_append hkeys1len (List.mem_filterMap.mpr ⟨x, hx, hvx⟩)
  -- the second selection only draws fresh items
  have hnd2 : (s2.filterMap gifKey).Nodup :=
    ((hp2.filterMap gifKey).nodup_iff).mpr (dedupeAux_keys_nodup_disjoint g2 []).1
  have hlen2 : maxCount + M ≤ s2.length := by
    rw [hp2.length_eq]
    exact hn2
  have hist2len : hist2.length ≤ M := trimFront_length_le _ _
  have hfb2 : (s2.filter fun g => gifUsed hist2 g).length ≤ hist2.length :=
    fallback_length_le hnd2
  have hsum := List.length_eq_length_filter_add (l := s2) (fun g => gifUsed hist2 g)
  have hfr2 : maxCount ≤ (s2.filter fun g => !gifUsed hist2 g).length := by omega
  rw [List.take_append_of_le_length hfr2] at hy
  have hy1 : y ∈ s2.filter fun g => !gifUsed hist2 g := List.mem_of_mem_take hy
  have hyused : gifUsed hist2 y = false := by
    have h := List.of_mem_filter hy1
    simpa using h
  rw [hvx]
  cases hky : gifKey y with
  | none => simp
  | some vy =>
    have hvy : vy ∉ hist2 := by
      unfold gifUsed at hyused
      rw [hky] at hyused
      simpa using hyused
    simp only [ne_eq, Option.some.injEq]
    intro h
    subst h
    exact hvy hvx2

/-- Concrete items for the two `c4` evaluations: a pool of 25 (witness) or
41 (counterexample) distinct keys. -/
def c4pool (n : ℕ) : List (GifItem ℕ) :=
  (List.range n).map fun k => ⟨some k, none⟩

/-- Closed witness for `c4_history_non_repeat`: a 25-item pool, history bound
`M = 20`, `max_count = 5`, identity shuffles. -/
theorem c4_history_non_repeat_witness :
    (filter_and_select_gifs_for_artist (some "a") ([] : List ℕ) 20 5 (c4pool 25)
        (dedupeGifs (c4pool 25))).1.length ≤ 5 ∧
    (filter_and_select_gifs_for_artist (some "a")
        (filter_and_select_gifs_for_artist (some "a") ([] : List ℕ) 20 5 (c4pool 25)
          (dedupeGifs (c4pool 25))).2 20 5 (c4pool 25)
        (dedupeGifs (c4pool 25))).1.length ≤ 5 ∧
    ∀ x ∈ (filter_and_select_gifs_for_artist (some "a") ([] : List ℕ) 20 5 (c4pool 25)
        (dedupeGifs (c4pool 25))).1,
      ∀ y ∈ (filter_and_select_gifs_for_artist (some "a")
          (filter_and_select_gifs_for_artist (some "a") ([] : List ℕ) 20 5 (c4pool 25)
            (dedupeGifs (c4pool 25))).2 20 5 (c4pool 25)
          (dedupeGifs (c4pool 25))).1, gifKey x ≠ gifKey y :=
  c4_history_non_repeat (some "a") [] 20 5 (c4pool 25) (c4pool 25) _ _
    (by decide) (by decide) (List.Perm.refl _) (List.Perm.refl _)
    (by decide) (by decide)

/-- First call of the C4 counterexample: `max_count = 21` exceeds the history
bound `M = 20` (a legal configuration, `GIPHY_HISTORY_MAX_IDS_PER_ARTIST 20
= 20`), over a pool of `41 = max_count + M` distinct keys, identity
shuffle. -/
def c4call1 : List (GifItem ℕ) × List ℕ :=
  filter_and_select_gifs_for_artist (some "a") ([] : List ℕ)
    (GIPHY_HISTORY_MAX_IDS_PER_ARTIST 20) 21 (c4pool 41) (dedupeGifs (c4pool 41))

/-- Second call of the C4 counterexample, fed the history produced by the
first call. -/
def c4call2 : List (GifItem ℕ) × List ℕ :=
  filter_and_select_gifs_for_artist (some "a") c4call1.2
    (GIPHY_HISTORY_MAX_IDS_PER_ARTIST 20) 21 (c4pool 41) (dedupeGifs (c4pool 41))

/-- C4 counterexample: without the `max_count ≤ M` restriction the claim is
false.  With `M = GIPHY_HISTORY_MAX_IDS_PER_ARTIST 20 = 20` and
`max_count = 21`, a pool of `max_count + M = 41` distinct keys and identity
shuffles, the item with key 0 is selected by both of two consecutive calls
for the same artist: the first call's 21 recorded keys overflow the
20-element history, so key 0 is evicted and counts as fresh again. -/
theorem c4_counterexample :
    normalize_artist_key (some "a") ≠ "" ∧
    GIPHY_HISTORY_MAX_IDS_PER_ARTIST 20 = 20 ∧
    21 + GIPHY_HISTORY_MAX_IDS_PER_ARTIST 20 ≤ (dedupeGifs (c4pool 41)).length ∧
    (⟨some 0, none⟩ : GifItem ℕ) ∈ c4call1.1 ∧
    (⟨some 0, none⟩ : GifItem ℕ) ∈ c4call2.1 := by
  refine ⟨by decide, by decide, by decide, by decide, by decide⟩

/-! ## Music-video cache and in-flight guard (`djcap_processor.py`,
lines 48-571) -/

/-- A media/video dict (`id`, `url`, `title`, ... as produced by
`_download_music_video_full_mp4` or the clip builders). -/
structure MediaItem where
  id : Option String
  url : Option String
  title : Option String
deriving DecidableEq, Repr

/-- One `_music_video_cache` entry:
`{status, clips, video, downloaded_at, started_at, error?}`.
`downloadedAt = 0` models a falsy/missing `downloaded_at`. -/
structure MVEntry where
  status : String
  clips : List MediaItem
  video : Option MediaItem
  downloadedAt : ℚ
  startedAt : ℚ
  error : Option String
deriving DecidableEq, Repr

/-- The module-level music-video state: `_music_video_cache` (a dict,
modelled as an assoc list whose first hit wins) and `_music_video_inflight`
(a set). -/
structure MVState where
  cache : List (String × MVEntry)
  inflight : List String
deriving DecidableEq, Repr

def mvCacheLookup (s : MVState) (tid : String) : Option MVEntry :=
  s.cache.lookup tid

/-- `_music_video_cache.pop(track_id, None)`. -/
def mvCachePop (s : MVState) (tid : String) : MVState :=
  { s with cache := s.cache.filter fun p => decide (p.1 ≠ tid) }

/-- `_music_video_cache[track_id] = entry`. -/
def mvCacheSet (s : MVState) (tid : String) (e : MVEntry) : MVState :=
  { s with cache := (tid, e) :: s.cache.filter fun p => decide (p.1 ≠ tid) }

/-- `time_since_download = time.time() - float(downloaded_at or 0) if
downloaded_at else 0`. -/
def mv_time_since_download (now downloadedAt : ℚ) : ℚ :=
  if downloadedAt ≠ 0 then now - downloadedAt else 0

/-- The retry decision of `_maybe_start_music_video_download` for a cached
entry: `should_retry = False`; then
`if status in {"error", "empty"}: if time_since_download > 10: should_retry =
True; elif status == "empty" and time_since_download > 0: should_retry =
time_since_download > 30`. -/
def mv_should_retry (status : String) (tsd : ℚ) : Bool :=
  if status = "error" ∨ status = "empty" then
    if tsd > 10 then true
    else if status = "empty" ∧ tsd > 0 then decide (tsd > 30)
    else false
  else false

/-- The tail of `_maybe_start_music_video_download`: skip when the key is
already in flight, otherwise mark it in flight and dispatch the worker
thread.  The returned `Bool` reports whether a worker was dispatched. -/
def mvDispatch (s : MVState) (tid : String) : MVState × Bool :=
  if tid ∈ s.inflight then (s, false)
  else ({ s with inflight := tid :: s.inflight }, true)

/-- `_maybe_start_music_video_download(track_id, title, artist, bpm)`:
no-op when any argument is falsy; on a cache hit, no-op unless the retry
cooldown admits a retry, in which case the stale entry is popped and the
flow continues; then the in-flight guard and dispatch. -/
def maybe_start_music_video_download (tid : String) (title artist : Option String)
    (bpm : Option ℚ) (now : ℚ) (s : MVState) : MVState × Bool :=
  if tid = "" ∨ strTruthy title = false ∨ strTruthy artist = false
      ∨ numTruthy bpm = false then
    (s, false)
  else
    match mvCacheLookup s tid with
    | some cached =>
      if mv_should_retry cached.status (mv_time_since_download now cached.downloadedAt) then
        mvDispatch (mvCachePop s tid) tid
      else (s, false)
    | none => mvDispatch s tid

/-- The possible outcomes of the background work done by `_worker` in the
configured `MUSIC_VIDEO_DOWNLOAD_MODE = "full"`:
`_download_music_video_full_mp4` returns a video dict or `None`, or the body
raises. -/
inductive WorkerOutcome where
  | video (v : MediaItem)
  | noVideo
  | exc (msg : String)
deriving DecidableEq, Repr

/-- `_worker`: write the cache entry corresponding to the outcome
(`ready`/`empty` on return, `error` on an exception), and always discard the
track key from the in-flight set in the `finally` block. -/
def mv_worker (tid : String) (outcome : WorkerOutcome) (startedAt now : ℚ)
    (s : MVState) : MVState :=
  let s2 :=
    match outcome with
    | .video v => mvCacheSet s tid ⟨"ready", [], some v, now, startedAt, none⟩
    | .noVideo => mvCacheSet s tid ⟨"empty", [], none, now, startedAt, none⟩
    | .exc msg => mvCacheSet s tid ⟨"error", [], none, now, startedAt, some msg⟩
  { s2 with inflight := s2.inflight.filter fun x => decide (x ≠ tid) }

/-- C3: starting from a state with no cache entry and no in-flight marker for
the track key, and non-falsy inputs, the first call dispatches a worker and
marks the key in flight; a second call made before the worker finishes (cache
and in-flight unchanged) dispatches nothing and leaves the state unchanged,
so exactly one worker is dispatched in total; and the worker removes the key
from the in-flight set on every completion path (video, empty result, or
exception). -/
theorem c3_inflight_guard (s : MVState) (tid : String) (title artist : Option String)
    (bpm : Option ℚ) (now1 now2 : ℚ)
    (htid : tid ≠ "") (htitle : strTruthy title = true)
    (hartist : strTruthy artist = true) (hbpm : numTruthy bpm = true)
    (hcache : mvCacheLookup s tid = none) (hinf : tid ∉ s.inflight) :
    (maybe_start_music_video_download tid title artist bpm now1 s).2 = true ∧
    tid ∈ (maybe_start_music_video_download tid title artist bpm now1 s).1.inflight ∧
    (maybe_start_music_video_download tid title artist bpm now2
        (maybe_start_music_video_download tid title artist bpm now1 s).1).2 = false ∧
    (maybe_start_music_video_download tid title artist bpm now2
        (maybe_start_music_video_download tid title artist bpm now1 s).1).1
      = (maybe_start_music_video_download tid title artist bpm now1 s).1 ∧
    ∀ (outcome : WorkerOutcome) (st nw : ℚ),
      tid ∉ (mv_worker tid outcome st nw
          (maybe_start_music_video_download tid title artist bpm now1 s).1).inflight := by
  have hguard : ¬(tid = "" ∨ strTruthy title = false ∨ strTruthy artist = false
      ∨ numTruthy bpm = false) := by
    simp [htid, htitle, hartist, hbpm]
  have hr1 : maybe_start_music_video_download tid title artist bpm now1 s
      = ({ s with inflight := tid :: s.inflight }, true) := by
    rw [maybe_start_music_video_download, if_neg hguard, hcache]
    simp only [mvDispatch, if_neg hinf]
  have hcache2 : mvCacheLookup { s with inflight := tid :: s.inflight } tid = none :=
    hcache
  have hr2 : maybe_start_music_video_download tid title artist bpm now2
      ({ s with inflight := tid :: s.inflight } : MVState)
      = ({ s with inflight := tid :: s.inflight }, false) := by
    rw [maybe_start_music_video_download, if_neg hguard, hcache2]
    simp only [mvDispatch, if_pos (List.mem_cons_self tid s.inflight)]
  refine ⟨by rw [hr1], by rw [hr1]; exact List.mem_cons_self tid s.inflight,
    by rw [hr1, hr2], by rw [hr1, hr2], ?_⟩
  intro outcome st nw
  rw [hr1]
  cases outcome <;> simp [mv_worker, mvCacheSet]

/-- Closed witness for `c3_inflight_guard` at a concrete state and track. -/
theorem c3_inflight_guard_witness :
    (maybe_start_music_video_download "X|A" (some "X") (some "A") (some 120) 1
        ⟨[], []⟩).2 = true ∧
    "X|A" ∈ (maybe_start_music_video_download "X|A" (some "X") (some "A") (some 120) 1
        ⟨[], []⟩).1.inflight ∧
    (maybe_start_music_video_download "X|A" (some "X") (some "A") (some 120) 2
        (maybe_start_music_video_download "X|A" (some "X") (some "A") (some 120) 1
          ⟨[], []⟩).1).2 = false ∧
    (maybe_start_music_video_download "X|A" (some "X") (some "A") (some 120) 2
        (maybe_start_music_video_download "X|A" (some "X") (some "A") (some 120) 1
          ⟨[], []⟩).1).1
      = (maybe_start_music_video_download "X|A" (some "X") (some "A") (some 120) 1
          ⟨[], []⟩).1 ∧
    ∀ (outcome : WorkerOutcome) (st nw : ℚ),
      "X|A" ∉ (mv_worker "X|A" outcome st nw
          (maybe_start_music_video_download "X|A" (some "X") (some "A") (some 120) 1
            ⟨[], []⟩).1).inflight :=
  c3_inflight_guard ⟨[], []⟩ "X|A" (some "X") (some "A") (some 120) 1 2
    (by decide) (by decide) (by decide) (by decide) (by decide) (by decide)

/-- C8: the code's own comment says an `empty` cached result should be
retried only after 30 seconds, and the claim says `empty` has a longer
cooldown than `error`; but the 30-second branch is dead code (it is reached
only when `time_since_download <= 10`, where `time_since_download > 30` is
always false), so both `empty` and `error` retry as soon as more than 10
seconds have elapsed: at 20 seconds an `empty` entry is retried although the
claimed longer cooldown has not elapsed, and below the 10-second mark both
are no-ops. -/
theorem c8_retry_cooldown_code_bug :
    mv_should_retry "empty" 20 = true ∧
    mv_should_retry "error" 20 = true ∧
    mv_should_retry "empty" 5 = false ∧
    mv_should_retry "error" 5 = false := by
  refine ⟨by decide, by decide, by decide, by decide⟩

/-! ## Deck state, enrichment, transition
(`djcap_processor.py`, lines 1446-1459, 1544-1676, 1854-2135) -/

/-- `deck_data['transition']`: `{in_progress, start_time, duration}`; the
cleared form written on expiry is `{'in_progress': False}` alone. -/
structure Transition where
  in_progress : Bool
  start_time : Option ℚ
  duration : Option ℚ
deriving DecidableEq, Repr

/-- An enrichment payload as built by `enrich_deck_data` (plus the
music-video fields written into it by the cache overlay).  `Option` marks
keys that may be absent from the dict. -/
structure Enriched where
  deck : Option String
  title : Option String
  artist : Option String
  bpm : Option ℚ
  key : Option String
  active : Bool
  lastfm_tags : Option (List String)
  giphy_query : Option String
  giphy_query_parts : Option (List String)
  google_query_parts : Option (List String)
  refined_keywords : Option (List String)
  keyword_scores : Option (List (String × ℚ))
  key_characteristics : Option (List String)
  gifs : Option (List MediaItem)
  gif_pool : Option (List MediaItem)
  dance_videos_overlay : Option (List MediaItem)
  track_started_at : Option ℚ
  music_video_status : Option String
  music_video_downloaded_at : Option ℚ
  music_video_clips : Option (List MediaItem)
  music_video : Option MediaItem
deriving DecidableEq, Repr

/-- A per-deck dict of the shared document, before or after processing.
`Option` marks keys that may be absent (or hold `None`). -/
structure Deck where
  deck : Option String
  title : Option String
  artist : Option String
  bpm : Option ℚ
  key : Option String
  active : Option Bool
  current_enriched : Option Enriched
  next_enriched : Option Enriched
  transition : Option Transition
  lastfm_tags : Option (List String)
  refined_keywords : Option (List String)
  keyword_scores : Option (List (String × ℚ))
  key_characteristics : Option (List String)
  gifs : Option (List MediaItem)
  gif_pool : Option (List MediaItem)
  giphy_query : Option String
  giphy_query_parts : Option (List String)
  google_query_parts : Option (List String)
  dance_videos_overlay : Option (List MediaItem)
  track_started_at : Option ℚ
  music_video_status : Option String
  music_video_downloaded_at : Option ℚ
  music_video_clips : Option (List MediaItem)
  music_video : Option MediaItem
deriving DecidableEq, Repr

/-- The deck dict with no keys (`data.get('deck1', {})` on a missing deck). -/
def emptyDeck : Deck :=
  ⟨none, none, none, none, none, none, none, none, none, none, none, none,
   none, none, none, none, none, none, none, none, none, none, none, none⟩

/-- Python string interpolation of a `None`-able value (`f"{x}"` renders
`None` as `"None"`). -/
def pyOptStr : Option String → String
  | none => "None"
  | some s => s

/-- `track_id = f"{title}|{artist}"`. -/
def trackIdOf (title artist : Option String) : String :=
  pyOptStr title ++ "|" ++ pyOptStr artist

/-- `_build_giphy_query_parts(title, artist)`: artist-only policy
(`if not artist: return []; a = str(artist).strip(); return [a] if a else
[]`). -/
def build_giphy_query_parts (title artist : Option String) : List String :=
  if strTruthy artist = false then []
  else
    let a := pyStrip (artist.getD "")
    if a = "" then [] else [a]

/-- `enrich_deck_data` under the source configuration (`USE_LASTFM_API =
False`, `USE_KEYWORD_ANALYZER = False`, Giphy/Google fetching disabled):
an inactive deck yields only basic metadata; an active deck yields keywords
built from title, artist and key characteristics, empty GIF lists, and the
dance-video overlay bank (`get_dance_videos(count=60)`, a local-disk read
passed in as `danceBank`). -/
def enrich_deck_data (d : Deck) (danceBank : List MediaItem) : Enriched :=
  if d.active.getD false = false then
    { deck := d.deck, title := d.title, artist := d.artist, bpm := d.bpm,
      key := d.key, active := false,
      lastfm_tags := none, giphy_query := none, giphy_query_parts := none,
      google_query_parts := none, refined_keywords := none,
      keyword_scores := none, key_characteristics := none, gifs := none,
      gif_pool := none, dance_videos_overlay := none, track_started_at := none,
      music_video_status := none, music_video_downloaded_at := none,
      music_video_clips := none, music_video := none }
  else
    let key_characteristics :=
      if strTruthy d.key then translate_key_to_characteristics d.key else []
    let keyword_collection :=
      (if strTruthy d.title then [d.title.getD ""] else [])
        ++ (if strTruthy d.artist then [d.artist.getD ""] else [])
        ++ key_characteristics
    { deck := d.deck, title := d.title, artist := d.artist, bpm := d.bpm,
      key := d.key, active := true,
      lastfm_tags := some [],
      giphy_query := none,
      giphy_query_parts := some [],
      google_query_parts := some [],
      refined_keywords := some keyword_collection,
      keyword_scores := some [],
      key_characteristics := some key_characteristics,
      gifs := some [],
      gif_pool := some [],
      dance_videos_overlay := some danceBank,
      track_started_at := none,
      music_video_status := none, music_video_downloaded_at := none,
      music_video_clips := none, music_video := none }

/-- `_enriched_gif_policy_stale(deck_data, enriched)`. -/
def enriched_gif_policy_stale (d : Deck) (e : Enriched) : Bool :=
  let desired := build_giphy_query_parts d.title d.artist
  let qp_ok :=
    match e.giphy_query_parts with
    | some qp => decide (qp.take desired.length = desired)
    | none => false
  let gifs_ok :=
    if desired.isEmpty then true
    else
      match e.gifs with
      | some gs => decide (gs.length ≤ GIPHY_GIFS_PER_TRACK)
      | none => false
  let pool_ok :=
    match e.gif_pool with
    | some pool =>
      if desired.isEmpty then true
      else decide ((e.gifs.getD []).length ≤ pool.length)
    | none => false
  !qp_ok || !gifs_ok || !pool_ok

/-- Lines 2084-2133 of `process_deck_transition`: copy the current enrichment
payload to the deck's top level, then apply any cached music-video result to
both the payload and the deck, with the two trailing fallback assignments. -/
def mergeCurrentEnriched (d : Deck) (cur : Enriched) (mv : MVState)
    (tid : String) : Deck :=
  let cur2 :=
    match mvCacheLookup mv tid with
    | some m =>
      { cur with
        music_video_status := some m.status,
        music_video_downloaded_at := some m.downloadedAt,
        music_video_clips := some m.clips,
        music_video := m.video }
    | none => cur
  let d2 :=
    { d with
      current_enriched := some cur2,
      lastfm_tags := some (cur.lastfm_tags.getD []),
      refined_keywords := some (cur.refined_keywords.getD []),
      keyword_scores := some (cur.keyword_scores.getD []),
      key_characteristics := some (cur.key_characteristics.getD []),
      gifs := some (cur.gifs.getD []),
      gif_pool := some (cur.gif_pool.getD []),
      giphy_query := cur.giphy_query,
      giphy_query_parts := some (cur.giphy_query_parts.getD []),
      google_query_parts := some (cur.google_query_parts.getD []),
      dance_videos_overlay := some (cur.dance_videos_overlay.getD []) }
  let d3 :=
    match mvCacheLookup mv tid with
    | some _ =>
      { d2 with
        music_video_status := cur2.music_video_status,
        music_video_downloaded_at := cur2.music_video_downloaded_at,
        music_video_clips := cur2.music_video_clips,
        music_video := cur2.music_video }
    | none => d2
  let d4 :=
    if (d3.music_video_clips.getD []).isEmpty then
      if (cur2.music_video_clips.getD []).isEmpty = false then
        { d3 with music_video_clips := some (cur2.music_video_clips.getD []) }
      else d3
    else d3
  if d4.music_video_downloaded_at.isSome then d4
  else
    { d4 with
      music_video_downloaded_at := some (cur2.music_video_downloaded_at.getD 0) }

/-- The new-track arm of the active branch of `process_deck_transition`:
move `current_enriched` into `next_enriched`, start the music-video
download, compute a fresh enrichment stamped with the track start time, and
open a 2-second transition. -/
def deckNewTrack (d : Deck) (mv : MVState) (now : ℚ)
    (danceBank : List MediaItem) : Deck × MVState × Bool :=
  let tid := trackIdOf d.title d.artist
  let d1 :=
    if d.current_enriched.isSome then { d with next_enriched := d.current_enriched }
    else d
  let disp := maybe_start_music_video_download tid d.title d.artist d.bpm now mv
  let newE := { enrich_deck_data d danceBank with track_started_at := some now }
  let d2 :=
    { d1 with
      current_enriched := some newE,
      dance_videos_overlay :=
        if newE.dance_videos_overlay.isSome then newE.dance_videos_overlay
        else d1.dance_videos_overlay,
      transition := some ⟨true, some now, some 2⟩ }
  (mergeCurrentEnriched d2 newE disp.1 tid, disp.1, disp.2)

/-- The same-track arm of the active branch of `process_deck_transition`:
re-enrich only when the stored payload is missing keywords or fails the GIF
policy; backfill `track_started_at`; re-kick the music-video download; and
clear the transition (and `next_enriched`) once its duration has elapsed. -/
def deckSameTrack (d : Deck) (ce : Enriched) (mv : MVState) (now : ℚ)
    (danceBank : List MediaItem) : Deck × MVState × Bool :=
  let tid := trackIdOf d.title d.artist
  let needNew :=
    ce.refined_keywords.getD [] = [] ∨ enriched_gif_policy_stale d ce = true
  let curE0 := if needNew then enrich_deck_data d danceBank else ce
  let curE :=
    if numTruthy curE0.track_started_at then curE0
    else { curE0 with track_started_at := some now }
  let disp := maybe_start_music_video_download tid d.title d.artist d.bpm now mv
  let trNext : Option Transition × Option Enriched :=
    match d.transition with
    | some t =>
      if t.in_progress then
        if now - t.start_time.getD 0 ≥ t.duration.getD 2 then
          (some ⟨false, none, none⟩, none)
        else (d.transition, d.next_enriched)
      else (d.transition, d.next_enriched)
    | none => (d.transition, d.next_enriched)
  let d2 :=
    { d with
      current_enriched := some curE,
      dance_videos_overlay :=
        if ce.dance_videos_overlay.isSome then ce.dance_videos_overlay
        else d.dance_videos_overlay,
      transition := trNext.1,
      next_enriched := trNext.2 }
  (mergeCurrentEnriched d2 curE disp.1 tid, disp.1, disp.2)

/-- The active branch of `process_deck_transition`: a new track is one whose
`f"{title}|{artist}"` differs from the one recorded in `current_enriched`
(no `current_enriched` always counts as new). -/
def processDeckActive (d : Deck) (mv : MVState) (now : ℚ)
    (danceBank : List MediaItem) : Deck × MVState × Bool :=
  match d.current_enriched with
  | none => deckNewTrack d mv now danceBank
  | some ce =>
    if trackIdOf d.title d.artist = trackIdOf ce.title ce.artist then
      deckSameTrack d ce mv now danceBank
    else deckNewTrack d mv now danceBank

/-- The inactive-deck branch of `process_deck_transition`: rebuild the deck
from basic fields with `active: False`; preserve the enrichment payload from
`current_enriched` when the (truthy) track identity is unchanged;
proactively start a music-video download when the identity changed; and
overlay any cached music-video result.  The returned `Bool` reports whether
a download worker was dispatched. -/
def processDeckInactive (d : Deck) (mv : MVState) (now : ℚ) :
    Deck × MVState × Bool :=
  let tid := trackIdOf d.title d.artist
  let lastTid := d.current_enriched.map fun e => trackIdOf e.title e.artist
  let sameTrack :=
    decide (some tid = lastTid) && strTruthy d.title && strTruthy d.artist
  let disp :=
    if !sameTrack && strTruthy d.title && strTruthy d.artist && numTruthy d.bpm then
      maybe_start_music_video_download tid d.title d.artist d.bpm now mv
    else (mv, false)
  let base : Deck :=
    { emptyDeck with
      deck := d.deck, title := d.title, artist := d.artist, bpm := d.bpm,
      key := d.key, active := some false }
  let pres : Deck :=
    match d.current_enriched with
    | some e =>
      if sameTrack then
        { base with
          lastfm_tags := some (e.lastfm_tags.getD []),
          refined_keywords := some (e.refined_keywords.getD []),
          keyword_scores := some (e.keyword_scores.getD []),
          key_characteristics := some (e.key_characteristics.getD []),
          gifs := some (e.gifs.getD []),
          gif_pool := some (e.gif_pool.getD []),
          giphy_query := e.giphy_query,
          giphy_query_parts := some (e.giphy_query_parts.getD []),
          google_query_parts := some (e.google_query_parts.getD []),
          track_started_at := e.track_started_at,
          music_video_status := e.music_video_status,
          music_video_downloaded_at := some (e.music_video_downloaded_at.getD 0),
          music_video_clips := some (e.music_video_clips.getD []),
          music_video := e.music_video }
      else base
    | none => base
  let merged :=
    match mvCacheLookup disp.1 tid with
    | some m =>
      { pres with
        music_video_status := some m.status,
        music_video_downloaded_at := some m.downloadedAt,
        music_video_clips := some m.clips,
        music_video := m.video }
    | none => pres
  (merged, disp.1, disp.2)

/-- `process_deck_transition(deck_data, deck_name, is_active)`. -/
def process_deck_transition (d : Deck) (isActive : Bool) (mv : MVState)
    (now : ℚ) (danceBank : List MediaItem) : Deck × MVState × Bool :=
  if isActive then processDeckActive d mv now danceBank
  else processDeckInactive d mv now

/-- A concrete enrichment payload used by the C5/C6 evaluations. -/
def mkEnr (title artist : Option String) (gifs : List MediaItem) : Enriched :=
  { deck := none, title := title, artist := artist, bpm := some 120,
    key := none, active := true,
    lastfm_tags := some [], giphy_query := none, giphy_query_parts := some [],
    google_query_parts := some [],
    refined_keywords := some ["k"], keyword_scores := some [],
    key_characteristics := some [], gifs := some gifs, gif_pool := some [],
    dance_videos_overlay := some [], track_started_at := some 1,
    music_video_status := none, music_video_downloaded_at := none,
    music_video_clips := none, music_video := none }

/-- The enrichment payload for the C6 evaluation (identity `X`/`A`). -/
def c6enr : Enriched := mkEnr (some "X") (some "A") []

/-- The enrichment payload for the C5 counterexample: identity with a missing
title, carrying one GIF. -/
def c5enr : Enriched := mkEnr none (some "a") [⟨some "g1", none, none⟩]

/-- The deck for the C5 counterexample: paused, title missing (`None`) and
unchanged, artist unchanged, previous enrichment present. -/
def c5deck : Deck :=
  { emptyDeck with
    artist := some "a", bpm := some 120, active := some false,
    current_enriched := some c5enr }

theorem mergeCurrentEnriched_transition (d : Deck) (cur : Enriched)
    (mv : MVState) (tid : String) :
    (mergeCurrentEnriched d cur mv tid).transition = d.transition := by
  unfold mergeCurrentEnriched
  cases mvCacheLookup mv tid <;> dsimp only <;> split_ifs <;> rfl

theorem mergeCurrentEnriched_next (d : Deck) (cur : Enriched)
    (mv : MVState) (tid : String) :
    (mergeCurrentEnriched d cur mv tid).next_enriched = d.next_enriched := by
  unfold mergeCurrentEnriched
  cases mvCacheLookup mv tid <;> dsimp only <;> split_ifs <;> rfl

/-- C6: in the same-track active branch, a transition record whose duration
has elapsed (`now - start_time >= duration`) is cleared: the published
transition no longer reports `in_progress` and `next_enriched`
(`pending_enrichment`) is set to null.  The inactive branch and the
new-track branch drop or replace the record, so a record created at time `T`
with duration 2 is absent from every cycle processed at `now ≥ T + 2`. -/
theorem c6_transition_auto_expiry (d : Deck) (e : Enriched) (mv : MVState)
    (now T dur : ℚ) (danceBank : List MediaItem)
    (hce : d.current_enriched = some e)
    (hsame : trackIdOf d.title d.artist = trackIdOf e.title e.artist)
    (htr : d.transition = some ⟨true, some T, some dur⟩)
    (hnow : now - T ≥ dur) :
    (processDeckActive d mv now danceBank).1.transition
        = some ⟨false, none, none⟩ ∧
      (processDeckActive d mv now danceBank).1.next_enriched = none := by
  have hred : processDeckActive d mv now danceBank
      = deckSameTrack d e mv now danceBank := by
    simp only [processDeckActive, hce, if_pos hsame]
  rw [hred]
  unfold deckSameTrack
  dsimp only
  rw [mergeCurrentEnriched_transition, mergeCurrentEnriched_next]
  rw [htr]
  dsimp only [Option.getD_some]
  rw [if_pos rfl, if_pos hnow]
  exact ⟨rfl, rfl⟩

/-- Closed witness for `c6_transition_auto_expiry`: a transition opened at
time 0 with duration 2 is cleared in a cycle processed at time 5. -/
theorem c6_transition_auto_expiry_witness :
    (processDeckActive
        { emptyDeck with
          title := some "X", artist := some "A", bpm := some 120,
          active := some true,
          current_enriched := some (c6enr),
          transition := some ⟨true, some 0, some 2⟩ }
        ⟨[], []⟩ 5 []).1.transition = some ⟨false, none, none⟩ ∧
    (processDeckActive
        { emptyDeck with
          title := some "X", artist := some "A", bpm := some 120,
          active := some true,
          current_enriched := some (c6enr),
          transition := some ⟨true, some 0, some 2⟩ }
        ⟨[], []⟩ 5 []).1.next_enriched = none :=
  c6_transition_auto_expiry _ c6enr ⟨[], []⟩ 5 0 2 [] rfl rfl rfl (by norm_num)

/-- C5 (amended with truthy title/artist): in the inactive branch, when the
track identity stored in `current_enriched` matches the deck's (non-empty)
title and artist, the merged output keeps all enrichment fields from the
previous payload and rewrites only the basic fields and the active flag;
`current_enriched`, `next_enriched` and `transition` keys are not carried
(the output is exactly the base-plus-preserved merge).  The hypothesis
`hmvc` states that the stored payload already reflects any cached
music-video entry for this track — which the previous (active) cycle's merge
guarantees — so the cache overlay rewrites the music-video fields with the
values they already hold. -/
theorem c5_identity_gated_preservation (d : Deck) (e : Enriched) (mv : MVState)
    (now : ℚ)
    (hce : d.current_enriched = some e)
    (htitle : d.title = e.title) (hartist : d.artist = e.artist)
    (httruthy : strTruthy d.title = true) (hatruthy : strTruthy d.artist = true)
    (hmvc : ∀ m, mvCacheLookup mv (trackIdOf d.title d.artist) = some m →
      e.music_video_status = some m.status ∧
      e.music_video_downloaded_at = some m.downloadedAt ∧
      e.music_video_clips = some m.clips ∧
      e.music_video = m.video) :
    (processDeckInactive d mv now).1 =
      { emptyDeck with
        deck := d.deck, title := d.title, artist := d.artist, bpm := d.bpm,
        key := d.key, active := some false,
        lastfm_tags := some (e.lastfm_tags.getD []),
        refined_keywords := some (e.refined_keywords.getD []),
        keyword_scores := some (e.keyword_scores.getD []),
        key_characteristics := some (e.key_characteristics.getD []),
        gifs := some (e.gifs.getD []),
        gif_pool := some (e.gif_pool.getD []),
        giphy_query := e.giphy_query,
        giphy_query_parts := some (e.giphy_query_parts.getD []),
        google_query_parts := some (e.google_query_parts.getD []),
        track_started_at := e.track_started_at,
        music_video_status := e.music_video_status,
        music_video_downloaded_at := some (e.music_video_downloaded_at.getD 0),
        music_video_clips := some (e.music_video_clips.getD []),
        music_video := e.music_video } := by
  have h1 : strTruthy e.title = true := htitle ▸ httruthy
  have h2 : strTruthy e.artist = true := hartist ▸ hatruthy
  cases hlk : mvCacheLookup mv (trackIdOf d.title d.artist) with
  | none =>
    have h3 : mvCacheLookup mv (trackIdOf e.title e.artist) = none := by
      rw [← htitle, ← hartist]
      exact hlk
    simp only [processDeckInactive, hce, Option.map_some', htitle, hartist, h1, h2,
      h3, eq_self_iff_true, decide_True, Bool.and_true, Bool.true_and,
      Bool.and_self, Bool.not_true, Bool.false_and, Bool.false_eq_true, if_false,
      ite_false, if_true, ite_true]
  | some m =>
    obtain ⟨hs, hda, hcl, hvid⟩ := hmvc m hlk
    have h3 : mvCacheLookup mv (trackIdOf e.title e.artist) = some m := by
      rw [← htitle, ← hartist]
      exact hlk
    simp only [processDeckInactive, hce, Option.map_some', htitle, hartist, h1, h2,
      h3, eq_self_iff_true, decide_True, Bool.and_true, Bool.true_and,
      Bool.and_self, Bool.not_true, Bool.false_and, Bool.false_eq_true, if_false,
      ite_false, if_true, ite_true]
    rw [hs, hda, hcl, hvid]
    simp only [Option.getD_some]

/-- Deck for the C5 witness: a paused deck whose truthy identity matches its
previous enrichment. -/
def c5wdeck : Deck :=
  { emptyDeck with
    title := some "X", artist := some "A", bpm := some 120,
    active := some false, current_enriched := some c6enr }

/-- Closed witness for `c5_identity_gated_preservation` at a concrete paused
deck. -/
theorem c5_identity_gated_preservation_witness :
    (processDeckInactive c5wdeck ⟨[], []⟩ 10).1 =
      { emptyDeck with
        deck := c5wdeck.deck, title := c5wdeck.title, artist := c5wdeck.artist,
        bpm := c5wdeck.bpm, key := c5wdeck.key, active := some false,
        lastfm_tags := some (c6enr.lastfm_tags.getD []),
        refined_keywords := some (c6enr.refined_keywords.getD []),
        keyword_scores := some (c6enr.keyword_scores.getD []),
        key_characteristics := some (c6enr.key_characteristics.getD []),
        gifs := some (c6enr.gifs.getD []),
        gif_pool := some (c6enr.gif_pool.getD []),
        giphy_query := c6enr.giphy_query,
        giphy_query_parts := some (c6enr.giphy_query_parts.getD []),
        google_query_parts := some (c6enr.google_query_parts.getD []),
        track_started_at := c6enr.track_started_at,
        music_video_status := c6enr.music_video_status,
        music_video_downloaded_at := some (c6enr.music_video_downloaded_at.getD 0),
        music_video_clips := some (c6enr.music_video_clips.getD []),
        music_video := c6enr.music_video } :=
  c5_identity_gated_preservation c5wdeck c6enr ⟨[], []⟩ 10 rfl rfl rfl
    (by decide) (by decide) (fun m hm => Option.noConfusion hm)

/-- C5 counterexample: the claim as stated requires only that title and
artist be unchanged, but the code's same-track test additionally requires
both to be truthy (`bool(title) and bool(artist)`).  With an unchanged but
missing title (`None` on both sides) and a previous enrichment carrying a
GIF, the inactive merge drops the enrichment: the output has no `gifs`
key. -/
theorem c5_counterexample :
    c5deck.title = c5enr.title ∧ c5deck.artist = c5enr.artist ∧
    c5deck.current_enriched = some c5enr ∧
    c5enr.gifs = some [⟨some "g1", none, none⟩] ∧
    (processDeckInactive c5deck ⟨[], []⟩ 10).1.gifs = none := by
  refine ⟨rfl, rfl, rfl, rfl, rfl⟩

/-! ## The reconciliation cycle (`process_metadata_update`,
`djcap_processor.py`, lines 1469-1541 and 1686-2173) -/

/-- `DEBOUNCE_DELAY = 0.1`. -/
def DEBOUNCE_DELAY : ℚ := 1 / 10

/-- The basic per-deck fields compared by the change detector
(`basic_data`, lines 1723-1741; note `active` is read without a default
here). -/
structure BasicDeck where
  deck : Option String
  title : Option String
  artist : Option String
  bpm : Option ℚ
  key : Option String
  active : Option Bool
deriving DecidableEq, Repr

/-- `basic_data`: both decks' basic fields plus `active_deck`; the
sorted-keys JSON dump comparison is modelled as structural equality. -/
structure BasicDoc where
  deck1 : BasicDeck
  deck2 : BasicDeck
  active_deck : Option String
deriving DecidableEq, Repr

/-- The shared JSON document. -/
structure Doc where
  deck1 : Deck
  deck2 : Deck
  active_deck : Option String
deriving DecidableEq, Repr

def basicOfDeck (d : Deck) : BasicDeck :=
  ⟨d.deck, d.title, d.artist, d.bpm, d.key, d.active⟩

def basicOfDoc (d : Doc) : BasicDoc :=
  ⟨basicOfDeck d.deck1, basicOfDeck d.deck2, d.active_deck⟩

/-- Lines 1706-1719: determine the current active deck from the decks'
active flags, falling back to the document's previous `active_deck` (default
`'deck1'`) when both or neither deck is active. -/
def computeActiveDeck (d : Doc) : String :=
  let deck1_active := d.deck1.active.getD false
  let deck2_active := d.deck2.active.getD false
  if deck1_active && !deck2_active then "deck1"
  else if deck2_active && !deck1_active then "deck2"
  else if deck1_active && deck2_active then d.active_deck.getD "deck1"
  else d.active_deck.getD "deck1"

/-- `data.get(current_active_deck, {})`. -/
def deckFor (d : Doc) (deckName : String) : Deck :=
  if deckName = "deck1" then d.deck1
  else if deckName = "deck2" then d.deck2
  else emptyDeck

/-- `has_keywords = bool(active_deck_data.get('refined_keywords'))`. -/
def hasKeywordsB (dk : Deck) : Bool :=
  decide (dk.refined_keywords.getD [] ≠ [])

/-- Lines 1785-1801: `gifs_ok` — the deck's `gifs` key holds a non-empty
list. -/
def gifsOkB (dk : Deck) : Bool :=
  match dk.gifs with
  | some gs => decide (0 < gs.length)
  | none => false

/-- Lines 1804-1805: `qp_ok = (isinstance(qp, list) and qp[:2] ==
desired_parts) if desired_parts else True`. -/
def qpOkB (dk : Deck) : Bool :=
  let desired := build_giphy_query_parts dk.title dk.artist
  if desired.isEmpty then true
  else
    match dk.giphy_query_parts with
    | some qp => decide (qp.take 2 = desired)
    | none => false

/-- Lines 1769-1825: `needs_enrichment` — evaluated only when the computed
active deck reports active, otherwise `False`. -/
def needsEnrichmentB (dk : Deck) : Bool :=
  if dk.active.getD false then !hasKeywordsB dk || !gifsOkB dk || !qpOkB dk
  else false

/-- The module-level dedup state of the watcher (`_last_processed_time`,
`_last_processed_content`, `_last_active_deck`, `_last_deck1_active`,
`_last_deck2_active`). -/
structure ProcState where
  lastProcessedTime : ℚ
  lastProcessedContent : Option BasicDoc
  lastActiveDeck : Option String
  lastDeck1Active : Option Bool
  lastDeck2Active : Option Bool
deriving DecidableEq, Repr

/-- The processing phase of `process_metadata_update` (lines 1847-2158),
entered once the change guards pass: run `process_deck_transition` on both
decks, set `active_deck`, and publish.  The returned `ℕ` counts dispatched
music-video download workers — the only external fetches performed under the
source configuration (Giphy/Google fetching is disabled). -/
def processDocs (d : Doc) (mv : MVState) (now : ℚ) (danceBank : List MediaItem) :
    Doc × MVState × ℕ :=
  let r1 := process_deck_transition d.deck1 (d.deck1.active.getD false) mv now
    danceBank
  let r2 := process_deck_transition d.deck2 (d.deck2.active.getD false) r1.2.1 now
    danceBank
  (⟨r1.1, r2.1, some (computeActiveDeck d)⟩, r2.2.1,
    (cond r1.2.2 1 0) + (cond r2.2.2 1 0))

/-- `process_metadata_update`: debounce, read result, change guards, then
the processing phase.  `none` models the early returns (nothing published,
dedup state unchanged, zero fetches); `some` carries the published document,
the updated dedup state, the music-video state and the number of dispatched
fetch workers. -/
def process_metadata_update (st : ProcState) (mv : MVState) (data : Option Doc)
    (now : ℚ) (danceBank : List MediaItem) :
    Option (Doc × ProcState × MVState × ℕ) :=
  if now - st.lastProcessedTime < DEBOUNCE_DELAY then none
  else
    match data with
    | none => none
    | some d =>
      let deck1_active := d.deck1.active.getD false
      let deck2_active := d.deck2.active.getD false
      let current_active_deck := computeActiveDeck d
      let basic := basicOfDoc d
      let content_changed := decide (some basic ≠ st.lastProcessedContent)
      let active_status_changed :=
        decide (some deck1_active ≠ st.lastDeck1Active)
          || decide (some deck2_active ≠ st.lastDeck2Active)
      let active_deck_changed :=
        decide (some current_active_deck ≠ st.lastActiveDeck)
      let needs_enrichment := needsEnrichmentB (deckFor d current_active_deck)
      if !content_changed && !active_status_changed && !active_deck_changed
          && !needs_enrichment then none
      else
        let st2 : ProcState :=
          ⟨now, some basic, some current_active_deck, some deck1_active,
           some deck2_active⟩
        let r := processDocs d mv now danceBank
        some (r.1, st2, r.2.1, r.2.2)

/-- The observable outcome of one iteration of the `read_djcap_json` retry
loop. -/
inductive ReadAttempt where
  | tempExists
  | emptyContent
  | ok (d : Doc)
  | decodeError
  | notFound
  | ioError
deriving DecidableEq, Repr

/-- The retry loop of `read_djcap_json` (attempt `i`, `fuel` attempts left
including this one): a pending temp file sleeps and consumes an attempt; an
empty file, a missing file or an unexpected I/O error returns `None` at
once; a JSON decode error retries unless this was the last attempt; a parse
success returns the document. -/
def readAttempts (attempts : ℕ → ReadAttempt) (i : ℕ) : ℕ → Option Doc
  | 0 => none
  | fuel + 1 =>
    match attempts i with
    | .tempExists => readAttempts attempts (i + 1) fuel
    | .emptyContent => none
    | .ok d => some d
    | .decodeError => if fuel = 0 then none else readAttempts attempts (i + 1) fuel
    | .notFound => none
    | .ioError => none

/-- `read_djcap_json(file_path, max_retries=5, ...)`, over the sequence of
per-attempt outcomes. -/
def read_djcap_json (attempts : ℕ → ReadAttempt) (maxRetries : ℕ) : Option Doc :=
  readAttempts attempts 0 maxRetries

/-- C1: if the basic fields, both decks' active flags and the active deck
are unchanged since the previous run (recorded in the dedup state), and the
active deck's enrichment is non-stale — it has `refined_keywords`, a
non-empty `gifs` list and matching `giphy_query_parts` — then the run is a
no-op: nothing is published (the document is untouched) and no external
fetch of any kind is performed. -/
theorem c1_idempotent (st : ProcState) (mv : MVState) (d : Doc) (now : ℚ)
    (danceBank : List MediaItem)
    (hbasic : st.lastProcessedContent = some (basicOfDoc d))
    (hd1 : st.lastDeck1Active = some (d.deck1.active.getD false))
    (hd2 : st.lastDeck2Active = some (d.deck2.active.getD false))
    (had : st.lastActiveDeck = some (computeActiveDeck d))
    (hkw : hasKeywordsB (deckFor d (computeActiveDeck d)) = true)
    (hgifs : gifsOkB (deckFor d (computeActiveDeck d)) = true)
    (hqp : qpOkB (deckFor d (computeActiveDeck d)) = true) :
    process_metadata_update st mv (some d) now danceBank = none := by
  have hne : needsEnrichmentB (deckFor d (computeActiveDeck d)) = false := by
    unfold needsEnrichmentB
    split
    · rw [hkw, hgifs, hqp]
      rfl
    · rfl
  unfold process_metadata_update
  split
  · rfl
  · dsimp only
    rw [hbasic, hd1, hd2, had, hne]
    simp

/-- The document for the C1 and C7 witnesses: deck1 active with a non-stale
enrichment, deck2 inactive. -/
def c1doc : Doc :=
  { deck1 :=
      { emptyDeck with
        deck := some "deck1", title := some "X", artist := some "A",
        bpm := some 120, key := some "1A", active := some true,
        refined_keywords := some ["k"], gifs := some [⟨some "g", none, none⟩],
        giphy_query_parts := some ["A"] },
    deck2 := { emptyDeck with deck := some "deck2", active := some false },
    active_deck := some "deck1" }

/-- Closed witness for `c1_idempotent`: the state left by a first run over
`c1doc` makes a second run at time 1 a no-op. -/
theorem c1_idempotent_witness :
    process_metadata_update
        ⟨0, some (basicOfDoc c1doc), some "deck1", some true, some false⟩
        ⟨[], []⟩ (some c1doc) 1 [] = none :=
  c1_idempotent ⟨0, some (basicOfDoc c1doc), some "deck1", some true, some false⟩
    ⟨[], []⟩ c1doc 1 [] rfl rfl rfl rfl (by decide) (by decide) (by decide)

/-- The document for the C7 witness: both decks paused. -/
def c1doc2 : Doc :=
  { deck1 :=
      { emptyDeck with
        deck := some "deck1", title := some "X", artist := some "A",
        bpm := some 120, active := some false },
    deck2 := { emptyDeck with deck := some "deck2", active := some false },
    active_deck := some "deck1" }

/-- C7: whenever a cycle publishes with both decks inactive, the published
`active_deck` equals the input document's `active_deck` (the previously
published value), defaulting to `'deck1'` only when no previous value
exists; the field is never cleared.  (When the cycle is skipped nothing is
written, so the stored value also persists.) -/
theorem c7_active_deck_flap_guard (d : Doc) (mv : MVState) (now : ℚ)
    (danceBank : List MediaItem)
    (h1 : d.deck1.active.getD false = false)
    (h2 : d.deck2.active.getD false = false) :
    (processDocs d mv now danceBank).1.active_deck
      = some (d.active_deck.getD "deck1") := by
  unfold processDocs
  dsimp only
  unfold computeActiveDeck
  rw [h1, h2]
  rfl

/-- Closed witness for `c7_active_deck_flap_guard`: both decks inactive,
previous `active_deck` `'deck1'`. -/
theorem c7_active_deck_flap_guard_witness :
    (processDocs c1doc2 ⟨[], []⟩ 1 []).1.active_deck
      = some (c1doc2.active_deck.getD "deck1") :=
  c7_active_deck_flap_guard c1doc2 ⟨[], []⟩ 1 [] rfl rfl

/-- C9: a read whose five attempts all hit JSON decode errors returns `None`
after exactly the bounded retries instead of raising, and the reconciler
treats the failed read as an early exit: nothing is processed or published
and the dedup state is untouched, exactly as on a first-ever cycle with an
unreadable document. -/
theorem c9_corrupted_document (attempts : ℕ → ReadAttempt) (st : ProcState)
    (mv : MVState) (now : ℚ) (danceBank : List MediaItem)
    (h : ∀ i < 5, attempts i = ReadAttempt.decodeError) :
    read_djcap_json attempts 5 = none ∧
      process_metadata_update st mv (read_djcap_json attempts 5) now danceBank
        = none := by
  have hr : read_djcap_json attempts 5 = none := by
    simp [read_djcap_json, readAttempts, h 0 (by omega), h 1 (by omega),
      h 2 (by omega), h 3 (by omega), h 4 (by omega)]
  refine ⟨hr, ?_⟩
  rw [hr]
  unfold process_metadata_update
  split
  · rfl
  · rfl

/-- Closed witness for `c9_corrupted_document`: every attempt decode-fails. -/
theorem c9_corrupted_document_witness :
    read_djcap_json (fun _ => ReadAttempt.decodeError) 5 = none ∧
      process_metadata_update ⟨0, none, none, none, none⟩ ⟨[], []⟩
        (read_djcap_json (fun _ => ReadAttempt.decodeError) 5) 0 [] = none :=
  c9_corrupted_document (fun _ => ReadAttempt.decodeError)
    ⟨0, none, none, none, none⟩ ⟨[], []⟩ 0 [] (fun _ _ => rfl)

/-! ## C10: key translation totality -/

/-- C10: `translate_key_to_characteristics` is total (it is a Lean function,
hence never raises): `None` and `""` yield `[]`; any input whose
whitespace-trimmed, upper-cased form is one of the 24 Camelot keys yields that
key's table entry, every such entry being non-empty; every other input yields
`[]`. -/
theorem c10_key_translation_total :
    translate_key_to_characteristics none = [] ∧
    translate_key_to_characteristics (some "") = [] ∧
    (∀ s cs, CAMELOT_KEY_CHARACTERISTICS.lookup (pyUpper (pyStrip s)) = some cs →
      translate_key_to_characteristics (some s) = cs) ∧
    (∀ p ∈ CAMELOT_KEY_CHARACTERISTICS, p.2 ≠ []) ∧
    (∀ s, CAMELOT_KEY_CHARACTERISTICS.lookup (pyUpper (pyStrip s)) = none →
      translate_key_to_characteristics (some s) = []) := by
  refine ⟨rfl, rfl, ?_, by decide, ?_⟩
  · intro s cs h
    by_cases hs : s = ""
    · subst hs
      rw [show CAMELOT_KEY_CHARACTERISTICS.lookup (pyUpper (pyStrip "")) = none from
        by decide] at h
      exact Option.noConfusion h
    · simp [translate_key_to_characteristics, hs, h]
  · intro s h
    by_cases hs : s = ""
    · subst hs
      rfl
    · simp [translate_key_to_characteristics, hs, h]

/-- Closed witness for `c10_key_translation_total`: evaluates the translator
on a recognized key (with surrounding whitespace and lower case) and on an
unrecognized one. -/
theorem c10_key_translation_total_witness :
    translate_key_to_characteristics (some " 2a ")
        = ["triumphant", "victorious", "joyful", "energetic", "uplifting"] ∧
      translate_key_to_characteristics (some "C Major") = [] :=
  ⟨c10_key_translation_total.2.2.1 " 2a " _ (by decide),
   c10_key_translation_total.2.2.2.2 "C Major" (by decide)⟩

end DJCap
